import Mathlib

/-!
Shallow embedding of `src/renderer/framework/gpu_program.rs` (rg3d renderer:
GPU shader program lifecycle and uniform upload).

Conventions used throughout:

* Rust strings are modelled as `List Char` (the characters of the UTF-8
  text).  A NUL byte occurs in the UTF-8 encoding of a Rust string exactly
  when the character U+0000 occurs in it, so the interior-NUL check of
  `CString::new` is a membership test for that character.
* Every call into the OpenGL context and every write to the process log is
  recorded in a trace (`List GLEvent`), in program order.  The context's
  responses to queries (generated object ids, compile/link status flags,
  info logs, uniform locations) are supplied by small environment records,
  one field per query the code performs on a given path.
* `f32` values are carried opaquely; no arithmetic is performed on them.
-/

namespace Rg3d

/-- NUL character: the byte `CString::new` refuses in the interior of a
string. -/
def nul : Char := Char.ofNat 0

/-- ASCII apostrophe, used in the shared-include marker comment text. -/
def apos : Char := Char.ofNat 39

/-- Marker-comment text placed before the injected shared code
(gpu_program.rs line 98). -/
def sharedOpen : List Char :=
  "\n// include ".toList ++ [apos] ++ "shared.glsl".toList ++ [apos] ++ "\n".toList

/-- Marker-comment text placed after the injected shared code (line 100). -/
def sharedClose : List Char := "\n// end of include\n".toList

/-- Shared block built by `prepare_source_code` (lines 98-100): the marker
comments around the bundled shared-code fragment.  The contents of the
bundled file `shared.glsl` live outside this module; modelled from the spec
as a parameter (`a fixed, build-embedded shared-code text asset`). -/
def sharedBlock (shared_glsl : List Char) : List Char :=
  sharedOpen ++ shared_glsl ++ sharedClose

/-- Index of the last occurrence of a character, mirroring Rust
`str::rfind` for a `char` pattern (byte and character positions agree for
the ASCII characters searched here). -/
def rfindIdx (c : Char) : List Char → Option Nat
  | [] => none
  | x :: xs =>
    match rfindIdx c xs with
    | some i => some (i + 1)
    | none => if x = c then some 0 else none

/-- Index of the first occurrence of a character, mirroring Rust
`str::find` for a `char` pattern. -/
def find_char (c : Char) : List Char → Option Nat
  | [] => none
  | x :: xs => if x = c then some 0 else (find_char c xs).map (· + 1)

/-- Renderer error type (`renderer/error.rs`, outside this module).  The
first three variants and their payloads are exactly the ones
`gpu_program.rs` constructs; `EncodingError` is modelled from the spec: the
variant an interior-NUL `CString::new` failure is converted into by the
question-mark operator. -/
inductive RendererError where
  | ShaderCompilationFailed (shader_name : List Char) (error_message : List Char)
  | ShaderLinkingFailed (shader_name : List Char) (error_message : List Char)
  | UnableToFindShaderUniform (name : List Char)
  | EncodingError
  deriving DecidableEq

/-- Behaviour of `CString::new` on the bytes of a Rust string: fails if a
NUL byte occurs in the interior, otherwise yields the bytes with a NUL
terminator appended. -/
def cstring_new (s : List Char) : Except RendererError (List Char) :=
  if nul ∈ s then .error .EncodingError else .ok (s ++ [nul])

/-- Possible outcomes of `prepare_source_code`: a successful
(NUL-terminated) byte buffer, an error return, or a Rust panic (the
`.unwrap()` on line 104 when no newline follows the last `#`). -/
inductive PrepOutcome where
  | ok (bytes : List Char)
  | err (e : RendererError)
  | panicked
  deriving DecidableEq

/-- Embedding of `prepare_source_code` (gpu_program.rs lines 97-111).
If the source contains a `#`, the shared block is inserted just after the
first newline at or past the last `#` (panicking, via `unwrap`, when there
is no such newline); otherwise the shared block is prepended.  The result
is converted with `CString::new`. -/
def prepare_source_code (shared_glsl code : List Char) : PrepOutcome :=
  let shared := sharedBlock shared_glsl
  match rfindIdx '#' code with
  | some p =>
    match find_char '\n' (code.drop p) with
    | none => .panicked
    | some off =>
      let e := p + off + 1
      match cstring_new (code.take e ++ shared ++ code.drop e) with
      | .error err => .err err
      | .ok bytes => .ok bytes
  | none =>
    match cstring_new (shared ++ code) with
    | .error err => .err err
    | .ok bytes => .ok bytes

/-- The combined text (source plus injected shared block) that
`prepare_source_code` hands to `CString::new`, or `none` when the code
panics before reaching that point. -/
def combined_text (shared_glsl code : List Char) : Option (List Char) :=
  match rfindIdx '#' code with
  | some p =>
    match find_char '\n' (code.drop p) with
    | none => none
    | some off =>
      let e := p + off + 1
      some (code.take e ++ sharedBlock shared_glsl ++ code.drop e)
  | none => some (sharedBlock shared_glsl ++ code)

/-- True when `prepare_source_code` returned at all (did not panic). -/
def PrepOutcome.returned : PrepOutcome → Bool
  | .panicked => false
  | _ => true

/-- True when `prepare_source_code` returned a buffer. -/
def PrepOutcome.isOk : PrepOutcome → Bool
  | .ok _ => true
  | _ => false

/-- Modelled from the spec: the external math value types (`src/core/math`,
outside this module) are consumed as opaque 2/3/4-component float values;
`set_uniform` only reads their components to forward them. -/
structure Vec2 where
  x : Float
  y : Float

/-- Modelled from the spec: opaque 3-component float vector. -/
structure Vec3 where
  x : Float
  y : Float
  z : Float

/-- Modelled from the spec: opaque 4-component float vector. -/
structure Vec4 where
  x : Float
  y : Float
  z : Float
  w : Float

/-- Modelled from the spec: opaque 3x3 matrix; field `f` is the flat
column-major float data the upload call points at. -/
structure Mat3 where
  f : List Float

/-- Modelled from the spec: opaque 4x4 matrix; field `f` is the flat
column-major float data the upload call points at. -/
structure Mat4 where
  f : List Float

/-- Modelled from the spec: the external color type; `as_frgba` converts it
to a normalized 4-component float representation, modelled here as an
opaque stored value. -/
structure Color where
  frgba : Vec4

/-- Conversion used on the `Color` upload path (line 248). -/
def Color.as_frgba (c : Color) : Vec4 := c.frgba

/-- Modelled from the spec: the external texture resource
(`gpu_texture.rs`, outside this module), shared by reference; only its
identity matters to this core, which never mutates it. -/
structure GpuTexture where
  id : Nat
  deriving DecidableEq

/-- Modelled from the spec: the external graphics-state tracker
(`state.rs`, outside this module) records the currently bound program id.
The per-texture-unit record is maintained by the texture resource itself
and is abstracted into the `textureBindToUnit` trace event. -/
structure State where
  program : Nat
  deriving DecidableEq

/-- OpenGL stage-kind and boolean constants used by gpu_program.rs. -/
def glVERTEX_SHADER : Nat := 35633

/-- OpenGL fragment-stage kind constant. -/
def glFRAGMENT_SHADER : Nat := 35632

/-- OpenGL boolean TRUE. -/
def glTRUE : Nat := 1

/-- OpenGL boolean FALSE. -/
def glFALSE : Nat := 0

/-- Rust `usize as i32` cast: truncate to the low 32 bits and reinterpret
as a signed 32-bit value. -/
def i32_of_usize (n : Nat) : Int :=
  if n % 2 ^ 32 < 2 ^ 31 then ((n % 2 ^ 32 : Nat) : Int)
  else ((n % 2 ^ 32 : Nat) : Int) - 2 ^ 32

/-- One observable action of the core: a call into the OpenGL context, a
request to an external collaborator, or a write to the process log.  Query
events record the query being issued; the response comes from the
environment records below. -/
inductive GLEvent where
  | createShaderCall (ty : Nat)
  | shaderSource (shader : Nat)
  | compileShader (shader : Nat)
  | getCompileStatus (shader : Nat)
  | getShaderInfoLogLen (shader : Nat)
  | getShaderInfoLog (shader : Nat)
  | logWrite (msg : List Char)
  | createProgramCall
  | attachShader (prog : Nat) (shader : Nat)
  | deleteShader (shader : Nat)
  | linkProgram (prog : Nat)
  | getLinkStatus (prog : Nat)
  | getProgramInfoLogLen (prog : Nat)
  | getProgramInfoLog (prog : Nat)
  | deleteProgram (prog : Nat)
  | getUniformLocation (prog : Nat) (nameBytes : List Char)
  | setProgram (prog : Nat)
  | textureBindToUnit (tex : Nat) (unit : Nat)
  | uniform1i (loc : Int) (v : Int)
  | uniform1f (loc : Int) (v : Float)
  | uniform2f (loc : Int) (x y : Float)
  | uniform3f (loc : Int) (x y z : Float)
  | uniform4f (loc : Int) (x y z w : Float)
  | uniform1iv (loc : Int) (count : Int) (vals : List Int)
  | uniform1fv (loc : Int) (count : Int) (vals : List Float)
  | uniform2fv (loc : Int) (count : Int) (vals : List Vec2)
  | uniform3fv (loc : Int) (count : Int) (vals : List Vec3)
  | uniform4fv (loc : Int) (count : Int) (vals : List Vec4)
  | uniformMatrix3fv (loc : Int) (count : Int) (transpose : Bool) (data : List Float)
  | uniformMatrix4fv (loc : Int) (count : Int) (transpose : Bool) (data : List Float)

/-- Context responses consumed by one `create_shader` call: the id returned
by `CreateShader`, the `COMPILE_STATUS` flag, and the info-log text the
context reports (whose length answers the `INFO_LOG_LENGTH` query). -/
structure ShaderEnv where
  shaderId : Nat
  compileStatus : Int
  infoLog : List Char
  deriving DecidableEq

/-- Context responses consumed by the linking part of `from_source`: the id
returned by `CreateProgram`, the `LINK_STATUS` flag, and the link info-log
text the context reports. -/
structure LinkEnv where
  programId : Nat
  linkStatus : Int
  linkInfoLog : List Char
  deriving DecidableEq

/-- Log line written on stage-compile failure (lines 82-85). -/
def failedCompileMsg (name msg : List Char) : List Char :=
  "Failed to compile ".toList ++ name ++ " shader: ".toList ++ msg

/-- Log line written on stage-compile success (line 91). -/
def compiledMsg (name : List Char) : List Char :=
  "Shader ".toList ++ name ++ " compiled!".toList

/-- Embedding of `create_shader` (gpu_program.rs lines 60-95).  The result
is `none` when the Rust code panics (inside `prepare_source_code`); on the
failure branch the buffer is sized by `set_len(log_len)` and filled by
`GetShaderInfoLog`, so the message is the context's info-log text. -/
def create_shader (shared_glsl : List Char) (env : ShaderEnv) (name : List Char)
    (actual_type : Nat) (source : List Char) :
    Option (Except RendererError Nat) × List GLEvent :=
  match prepare_source_code shared_glsl source with
  | .panicked => (none, [])
  | .err e => (some (.error e), [])
  | .ok _csource =>
    let shader := env.shaderId
    let pre : List GLEvent :=
      [.createShaderCall actual_type, .shaderSource shader, .compileShader shader,
       .getCompileStatus shader]
    if env.compileStatus = 0 then
      let compilation_message := env.infoLog
      (some (.error (.ShaderCompilationFailed name compilation_message)),
       pre ++ [.getShaderInfoLogLen shader, .getShaderInfoLog shader,
               .logWrite (failedCompileMsg name compilation_message)])
    else
      (some (.ok shader), pre ++ [.logWrite (compiledMsg name)])

/-- Embedding of the `GpuProgram` struct (lines 21-26): the native program
handle plus the reusable scratch buffer for name lookups.  The
`PhantomData` thread-confinement marker has no runtime content. -/
structure GpuProgram where
  id : Nat
  name_buf : List Char
  deriving DecidableEq

/-- Embedding of `UniformLocation` (lines 28-33). -/
structure UniformLocation where
  id : Int
  deriving DecidableEq

/-- Embedding of the `UniformValue` tagged union (lines 36-58). -/
inductive UniformValue where
  | Sampler (index : Nat) (texture : GpuTexture)
  | Bool (b : Bool)
  | Integer (v : Int)
  | Float (v : Float)
  | Vec2 (v : Vec2)
  | Vec3 (v : Vec3)
  | Vec4 (v : Vec4)
  | Color (v : Color)
  | Mat4 (v : Mat4)
  | Mat3 (v : Mat3)
  | IntegerArray (vs : List Int)
  | FloatArray (vs : List Float)
  | Vec2Array (vs : List Vec2)
  | Vec3Array (vs : List Vec3)
  | Vec4Array (vs : List Vec4)
  | Mat4Array (vs : List Mat4)

/-- Embedding of `GpuProgram::from_source` (lines 114-160).  Compiles the
vertex stage, then the fragment stage, then creates/attaches/links the
program.  On link failure the info-log buffer is created with
`Vec::with_capacity(log_len)` but its length is never set, so the string
made from it is empty, and no log line is written on that path. -/
def GpuProgram.from_source (shared_glsl : List Char) (venv fenv : ShaderEnv)
    (lenv : LinkEnv) (name vertex_source fragment_source : List Char) :
    Option (Except RendererError GpuProgram) × List GLEvent :=
  match create_shader shared_glsl venv (name ++ "_VertexShader".toList)
      glVERTEX_SHADER vertex_source with
  | (none, t) => (none, t)
  | (some (.error e), t) => (some (.error e), t)
  | (some (.ok vertex_shader), t1) =>
    match create_shader shared_glsl fenv (name ++ "_FragmentShader".toList)
        glFRAGMENT_SHADER fragment_source with
    | (none, t2) => (none, t1 ++ t2)
    | (some (.error e), t2) => (some (.error e), t1 ++ t2)
    | (some (.ok fragment_shader), t2) =>
      let program := lenv.programId
      let t3 : List GLEvent :=
        [.createProgramCall, .attachShader program vertex_shader,
         .deleteShader vertex_shader, .attachShader program fragment_shader,
         .deleteShader fragment_shader, .linkProgram program,
         .getLinkStatus program]
      if lenv.linkStatus = 0 then
        (some (.error (.ShaderLinkingFailed name [])),
         t1 ++ t2 ++ t3 ++ [.getProgramInfoLogLen program, .getProgramInfoLog program])
      else
        (some (.ok { id := program, name_buf := [] }), t1 ++ t2 ++ t3)

/-- Embedding of `GpuProgram::uniform_location` (lines 162-179).  The
scratch buffer is cleared and refilled with the name bytes plus a NUL, the
context is queried, and a negative response is turned into
`UnableToFindShaderUniform`.  `queryLoc` is the context's response to the
`GetUniformLocation` call. -/
def GpuProgram.uniform_location (p : GpuProgram) (queryLoc : Int) (name : List Char) :
    Except RendererError UniformLocation × GpuProgram × List GLEvent :=
  let buf := name ++ [nul]
  let p2 : GpuProgram := { id := p.id, name_buf := buf }
  if queryLoc < 0 then
    (.error (.UnableToFindShaderUniform name), p2, [.getUniformLocation p.id buf])
  else
    (.ok { id := queryLoc }, p2, [.getUniformLocation p.id buf])

/-- Modelled from the spec: `State::set_program` (external graphics-state
tracker) records the given program id as current; the request is recorded
as a `setProgram` trace event. -/
def State.set_program (_s : State) (id : Nat) : State × List GLEvent :=
  ({ program := id }, [.setProgram id])

/-- Modelled from the spec: the texture resource's bind-to-unit request
(`gpu_texture.rs`, outside this module); the texture is responsible for the
per-unit graphics-state record, abstracted into the trace event. -/
def GpuTexture.bind (t : GpuTexture) (s : State) (unit : Nat) : State × List GLEvent :=
  (s, [.textureBindToUnit t.id unit])

/-- Embedding of `GpuProgram::bind` (lines 181-183). -/
def GpuProgram.bind (p : GpuProgram) (state : State) : State × List GLEvent :=
  State.set_program state p.id

/-- Embedding of `GpuProgram::set_uniform` (lines 185-253): re-binds the
program via the graphics state, then dispatches on the value's tag, issuing
the correctly-typed upload call (and, for samplers, the texture bind). -/
def GpuProgram.set_uniform (p : GpuProgram) (state : State)
    (location : UniformLocation) (value : UniformValue) : State × List GLEvent :=
  let s1 := State.set_program state p.id
  let loc := location.id
  match value with
  | .Sampler index texture =>
    let s2 := GpuTexture.bind texture s1.1 index
    (s2.1, s1.2 ++ [.uniform1i loc (i32_of_usize index)] ++ s2.2)
  | .Bool b =>
    (s1.1, s1.2 ++ [.uniform1i loc (if b then (glTRUE : Int) else (glFALSE : Int))])
  | .Integer v => (s1.1, s1.2 ++ [.uniform1i loc v])
  | .Float v => (s1.1, s1.2 ++ [.uniform1f loc v])
  | .Vec2 v => (s1.1, s1.2 ++ [.uniform2f loc v.x v.y])
  | .Vec3 v => (s1.1, s1.2 ++ [.uniform3f loc v.x v.y v.z])
  | .Vec4 v => (s1.1, s1.2 ++ [.uniform4f loc v.x v.y v.z v.w])
  | .Color v =>
    let rgba := v.as_frgba
    (s1.1, s1.2 ++ [.uniform4f loc rgba.x rgba.y rgba.z rgba.w])
  | .Mat4 v => (s1.1, s1.2 ++ [.uniformMatrix4fv loc 1 false v.f])
  | .Mat3 v => (s1.1, s1.2 ++ [.uniformMatrix3fv loc 1 false v.f])
  | .IntegerArray vs => (s1.1, s1.2 ++ [.uniform1iv loc (i32_of_usize vs.length) vs])
  | .FloatArray vs => (s1.1, s1.2 ++ [.uniform1fv loc (i32_of_usize vs.length) vs])
  | .Vec2Array vs => (s1.1, s1.2 ++ [.uniform2fv loc (i32_of_usize vs.length) vs])
  | .Vec3Array vs => (s1.1, s1.2 ++ [.uniform3fv loc (i32_of_usize vs.length) vs])
  | .Vec4Array vs => (s1.1, s1.2 ++ [.uniform4fv loc (i32_of_usize vs.length) vs])
  | .Mat4Array vs =>
    (s1.1, s1.2 ++ [.uniformMatrix4fv loc (i32_of_usize vs.length) false
      (vs.map Mat4.f).flatten])

/-- Embedding of `Drop for GpuProgram` (lines 256-262): the teardown of a
program issues the native program-deletion call for its handle.  Rust runs
`drop` exactly once per value (ownership/move semantics), which is mirrored
below by `lifetimeEvents` placing this trace terminally. -/
def GpuProgram.dropProgram (p : GpuProgram) : List GLEvent :=
  [.deleteProgram p.id]

/-- One operation a caller can perform on a live Program (the public
surface of this module between construction and destruction). -/
inductive LifeOp where
  | bindOp
  | locOp (queryLoc : Int) (name : List Char)
  | setOp (loc : UniformLocation) (v : UniformValue)

/-- Events emitted by one lifetime operation, threading the graphics
state. -/
def runOp (p : GpuProgram) (s : State) : LifeOp → State × List GLEvent
  | .bindOp => GpuProgram.bind p s
  | .locOp q nm => (s, (GpuProgram.uniform_location p q nm).2.2)
  | .setOp loc v => GpuProgram.set_uniform p s loc v

/-- Events emitted by a sequence of lifetime operations. -/
def runOps (p : GpuProgram) : State → List LifeOp → State × List GLEvent
  | s, [] => (s, [])
  | s, op :: ops =>
    let r := runOp p s op
    let rest := runOps p r.1 ops
    (rest.1, r.2 ++ rest.2)

/-- Full event trace of one Program lifetime: construction, an arbitrary
sequence of operations on the live program, and destruction (which Rust's
move semantics runs exactly once, terminally).  When construction fails no
program exists and no teardown runs. -/
def lifetimeEvents (shared_glsl : List Char) (venv fenv : ShaderEnv) (lenv : LinkEnv)
    (name vsrc fsrc : List Char) (s0 : State) (ops : List LifeOp) : List GLEvent :=
  match GpuProgram.from_source shared_glsl venv fenv lenv name vsrc fsrc with
  | (some (.ok p), t) => t ++ (runOps p s0 ops).2 ++ GpuProgram.dropProgram p
  | (_, t) => t

/-- Recognizer for the native program-deletion call. -/
def isDeleteProgram : GLEvent → Bool
  | .deleteProgram _ => true
  | _ => false

/-- Recognizer for the native program-creation call. -/
def isCreateProgramCall : GLEvent → Bool
  | .createProgramCall => true
  | _ => false

/-- Recognizer for the native shader-stage-creation call. -/
def isCreateShaderCall : GLEvent → Bool
  | .createShaderCall _ => true
  | _ => false

/-- Recognizer for stage-compile calls. -/
def isCompileShader : GLEvent → Bool
  | .compileShader _ => true
  | _ => false

/-- Messages written to the process log along a trace, in order. -/
def logMessages (t : List GLEvent) : List (List Char) :=
  t.filterMap fun ev =>
    match ev with
    | .logWrite m => some m
    | _ => none

/-- Events that mutate the shared graphics state: program binds and
texture-unit binds (spec section 5: the graphics state is mutated only by
these two operations). -/
def mutatesGraphicsState : GLEvent → Bool
  | .setProgram _ => true
  | .textureBindToUnit _ _ => true
  | _ => false

/-! Helper lemmas about the search primitives. -/

/-- A character reported absent by `rfindIdx` is not in the list. -/
theorem rfindIdx_none_not_mem (c : Char) (s : List Char) (h : rfindIdx c s = none) :
    c ∉ s := by
  induction s with
  | nil => simp
  | cons x xs ih =>
    cases hx : rfindIdx c xs with
    | some i => simp [rfindIdx, hx] at h
    | none =>
      simp only [rfindIdx, hx] at h
      split at h
      · exact absurd h (by simp)
      · next hxc =>
        intro hmem
        rcases List.mem_cons.mp hmem with h1 | h1
        · exact hxc h1.symm
        · exact ih hx h1

/-- Specification of `rfindIdx`: the reported index holds the character and
no later index does (it is the last occurrence). -/
theorem rfindIdx_spec (c : Char) (s : List Char) :
    ∀ p, rfindIdx c s = some p →
      s[p]? = some c ∧ ∀ j, p < j → s[j]? ≠ some c := by
  induction s with
  | nil => intro p h; simp [rfindIdx] at h
  | cons x xs ih =>
    intro p h
    cases hx : rfindIdx c xs with
    | some i =>
      simp only [rfindIdx, hx] at h
      obtain rfl : i + 1 = p := Option.some.inj h
      obtain ⟨h1, h2⟩ := ih i hx
      refine ⟨by simpa using h1, ?_⟩
      intro j hj
      cases j with
      | zero => omega
      | succ j' =>
        rw [List.getElem?_cons_succ]
        exact h2 j' (by omega)
    | none =>
      simp only [rfindIdx, hx] at h
      split at h
      · next hxc =>
        obtain rfl : 0 = p := Option.some.inj h
        refine ⟨by simp [hxc], ?_⟩
        intro j hj
        cases j with
        | zero => omega
        | succ j' =>
          rw [List.getElem?_cons_succ]
          intro hc
          have hmem : c ∈ xs := by
            obtain ⟨hlt, hh⟩ := List.getElem?_eq_some_iff.mp hc
            exact hh ▸ List.getElem_mem hlt
          exact rfindIdx_none_not_mem c xs hx hmem
      · exact absurd h (by simp)

/-- Specification of `find_char`: the reported index holds the character
and no earlier index does (it is the first occurrence). -/
theorem find_char_spec (c : Char) (s : List Char) :
    ∀ i, find_char c s = some i →
      s[i]? = some c ∧ ∀ j, j < i → s[j]? ≠ some c := by
  induction s with
  | nil => intro i h; simp [find_char] at h
  | cons x xs ih =>
    intro i h
    simp only [find_char] at h
    split at h
    · next hxc =>
      obtain rfl : 0 = i := Option.some.inj h
      exact ⟨by simp [hxc], by omega⟩
    · next hxc =>
      cases hx : find_char c xs with
      | none => rw [hx] at h; exact absurd h (by simp)
      | some i' =>
        rw [hx] at h
        obtain rfl : i' + 1 = i := Option.some.inj h
        obtain ⟨h1, h2⟩ := ih i' hx
        refine ⟨by simpa using h1, ?_⟩
        intro j hj
        cases j with
        | zero =>
          rw [List.getElem?_cons_zero]
          intro hc
          exact hxc (Option.some.inj hc)
        | succ j' =>
          rw [List.getElem?_cons_succ]
          exact h2 j' (by omega)

/-- C2 (counterexample): the claim says that for every stage source
containing a `#` character the shared block is inserted after the line
holding the last `#`; but for the source `"#v"`, which contains `#` and
has no newline after it, `prepare_source_code` panics on the `unwrap` and
produces no prepared text at all. -/
theorem prepare_hash_no_newline_cex :
    ('#' ∈ "#v".toList) ∧ (prepare_source_code [] "#v".toList).returned = false := by
  decide

/-- C2 (amended): if the source contains a `#` and a newline follows the
last one, the shared block is inserted immediately after the end of the
line containing the last `#` — the output splits the source at the
position just past the first newline at or after the last `#`, with both
halves otherwise unmodified; if the source contains no `#`, the shared
block is prepended before the entire source.  (Sources whose last `#` is
not followed by a newline panic instead; see the counterexample.) -/
theorem prepare_inserts_shared_after_last_hash_line (g code : List Char) :
    (∀ p off,
      rfindIdx '#' code = some p →
      find_char '\n' (code.drop p) = some off →
      nul ∉ code.take (p + off + 1) ++ sharedBlock g ++ code.drop (p + off + 1) →
      prepare_source_code g code =
        .ok (code.take (p + off + 1) ++ sharedBlock g ++ code.drop (p + off + 1) ++ [nul])
      ∧ code[p]? = some '#'
      ∧ (∀ j, p < j → code[j]? ≠ some '#')
      ∧ code[p + off]? = some '\n'
      ∧ (∀ j, p ≤ j → j < p + off → code[j]? ≠ some '\n')
      ∧ code.take (p + off + 1) ++ code.drop (p + off + 1) = code)
    ∧ (rfindIdx '#' code = none →
      nul ∉ sharedBlock g ++ code →
      prepare_source_code g code = .ok (sharedBlock g ++ code ++ [nul])
      ∧ '#' ∉ code) := by
  constructor
  · intro p off hp hoff hnonul
    obtain ⟨hp1, hp2⟩ := rfindIdx_spec '#' code p hp
    obtain ⟨hf1, hf2⟩ := find_char_spec '\n' (code.drop p) off hoff
    refine ⟨?_, hp1, hp2, ?_, ?_, List.take_append_drop _ _⟩
    · have hcs : cstring_new
          (code.take (p + off + 1) ++ sharedBlock g ++ code.drop (p + off + 1)) =
          .ok ((code.take (p + off + 1) ++ sharedBlock g ++
            code.drop (p + off + 1)) ++ [nul]) := by
        rw [cstring_new, if_neg hnonul]
      simp only [prepare_source_code, hp, hoff, hcs]
    · rw [List.getElem?_drop] at hf1
      exact hf1
    · intro j hpj hj
      have h2 := hf2 (j - p) (by omega)
      rw [List.getElem?_drop] at h2
      have he : p + (j - p) = j := by omega
      rwa [he] at h2
  · intro hnone hnonul
    refine ⟨?_, rfindIdx_none_not_mem '#' code hnone⟩
    have hcs : cstring_new (sharedBlock g ++ code) =
        .ok ((sharedBlock g ++ code) ++ [nul]) := by
      rw [cstring_new, if_neg hnonul]
    simp only [prepare_source_code, hnone, hcs]

/-- C2 (witness): concrete run on `"#version 450\ncode"` — the last `#` is
at index 0, its line ends at index 12, and the prepared text is the first
line, the shared block, then the untouched remainder, NUL-terminated. -/
theorem prepare_inserts_shared_after_last_hash_line_w :
    rfindIdx '#' "#version 450\ncode".toList = some 0
    ∧ find_char '\n' ("#version 450\ncode".toList.drop 0) = some 12
    ∧ prepare_source_code "S".toList "#version 450\ncode".toList =
        .ok ("#version 450\ncode".toList.take 13 ++ sharedBlock "S".toList ++
          "#version 450\ncode".toList.drop 13 ++ [nul]) :=
  ⟨by decide, by decide,
    ((prepare_inserts_shared_after_last_hash_line "S".toList
      "#version 450\ncode".toList).1 0 12 (by decide) (by decide) (by decide)).1⟩

/-- C3 (counterexample): the claim says preparation is total — always a
buffer or an `EncodingError`, failing exactly on embedded NUL.  But on the
NUL-free source `"#"` (a `#` with no following newline) the code panics on
the `unwrap` and returns nothing at all. -/
theorem prepare_totality_cex :
    (prepare_source_code [] ['#']).returned = false
    ∧ nul ∉ (['#'] : List Char) ∧ nul ∉ sharedBlock [] := by
  decide

/-- C3 (amended): whenever the combined text exists — that is, whenever the
source either has no `#` or has a newline after its last `#` —
`prepare_source_code` returns a NUL-terminated buffer of the combined text,
or fails with `EncodingError` exactly when the combined text contains an
embedded NUL character; the only non-returning inputs are those where a
`#` occurs with no newline anywhere at or after the last `#`, in which
case the `unwrap` panics. -/
theorem prepare_totality_spec (g code : List Char) :
    (∀ full, combined_text g code = some full →
      (nul ∈ full → prepare_source_code g code = .err .EncodingError)
      ∧ (nul ∉ full → prepare_source_code g code = .ok (full ++ [nul])))
    ∧ (combined_text g code = none →
      prepare_source_code g code = .panicked
      ∧ ∃ p, rfindIdx '#' code = some p ∧ find_char '\n' (code.drop p) = none) := by
  constructor
  · intro full hfull
    cases hp : rfindIdx '#' code with
    | none =>
      simp only [combined_text, hp] at hfull
      obtain rfl : sharedBlock g ++ code = full := Option.some.inj hfull
      constructor
      · intro hmem
        have hcs : cstring_new (sharedBlock g ++ code) = .error .EncodingError := by
          rw [cstring_new, if_pos hmem]
        simp only [prepare_source_code, hp, hcs]
      · intro hmem
        have hcs : cstring_new (sharedBlock g ++ code) =
            .ok ((sharedBlock g ++ code) ++ [nul]) := by
          rw [cstring_new, if_neg hmem]
        simp only [prepare_source_code, hp, hcs]
    | some p =>
      cases hoff : find_char '\n' (code.drop p) with
      | none =>
        rw [combined_text] at hfull
        simp only [hp, hoff] at hfull
        exact absurd hfull (by simp)
      | some off =>
        simp only [combined_text, hp, hoff] at hfull
        obtain rfl :
            code.take (p + off + 1) ++ sharedBlock g ++ code.drop (p + off + 1)
              = full := Option.some.inj hfull
        constructor
        · intro hmem
          have hcs : cstring_new
              (code.take (p + off + 1) ++ sharedBlock g ++
                code.drop (p + off + 1)) = .error .EncodingError := by
            rw [cstring_new, if_pos hmem]
          simp only [prepare_source_code, hp, hoff, hcs]
        · intro hmem
          have hcs : cstring_new
              (code.take (p + off + 1) ++ sharedBlock g ++
                code.drop (p + off + 1)) =
              .ok ((code.take (p + off + 1) ++ sharedBlock g ++
                code.drop (p + off + 1)) ++ [nul]) := by
            rw [cstring_new, if_neg hmem]
          simp only [prepare_source_code, hp, hoff, hcs]
  · intro hnone
    cases hp : rfindIdx '#' code with
    | none =>
      rw [combined_text] at hnone
      simp only [hp] at hnone
      exact absurd hnone (by simp)
    | some p =>
      cases hoff : find_char '\n' (code.drop p) with
      | some off =>
        rw [combined_text] at hnone
        simp only [hp, hoff] at hnone
        exact absurd hnone (by simp)
      | none =>
        refine ⟨?_, p, rfl, hoff⟩
        simp only [prepare_source_code, hp, hoff]

/-- C3 (witness): on the `#`-free, NUL-free source `"abc"` the combined
text exists and preparation returns it NUL-terminated. -/
theorem prepare_totality_spec_w :
    combined_text "S".toList "abc".toList = some (sharedBlock "S".toList ++ "abc".toList)
    ∧ prepare_source_code "S".toList "abc".toList =
        .ok (sharedBlock "S".toList ++ "abc".toList ++ [nul]) :=
  ⟨by decide,
    ((prepare_totality_spec "S".toList "abc".toList).1
      (sharedBlock "S".toList ++ "abc".toList) (by decide)).2 (by decide)⟩

/-! Helper lemmas about `create_shader` and `from_source`. -/

/-- Any error returned by `prepare_source_code` is the encoding error. -/
theorem prepare_err_shape (g src : List Char) (e : RendererError)
    (h : prepare_source_code g src = .err e) : e = .EncodingError := by
  cases hp : rfindIdx '#' src with
  | none =>
    by_cases hmem : nul ∈ sharedBlock g ++ src
    · have hcs : cstring_new (sharedBlock g ++ src) = .error .EncodingError := by
        rw [cstring_new, if_pos hmem]
      simp only [prepare_source_code, hp, hcs] at h
      exact (PrepOutcome.err.inj h).symm
    · have hcs : cstring_new (sharedBlock g ++ src) =
          .ok ((sharedBlock g ++ src) ++ [nul]) := by
        rw [cstring_new, if_neg hmem]
      simp only [prepare_source_code, hp, hcs] at h
      exact absurd h (by simp)
  | some p =>
    cases hoff : find_char '\n' (src.drop p) with
    | none =>
      simp only [prepare_source_code, hp, hoff] at h
      exact absurd h (by simp)
    | some off =>
      by_cases hmem :
          nul ∈ src.take (p + off + 1) ++ sharedBlock g ++ src.drop (p + off + 1)
      · have hcs : cstring_new
            (src.take (p + off + 1) ++ sharedBlock g ++ src.drop (p + off + 1)) =
            .error .EncodingError := by
          rw [cstring_new, if_pos hmem]
        simp only [prepare_source_code, hp, hoff, hcs] at h
        exact (PrepOutcome.err.inj h).symm
      · have hcs : cstring_new
            (src.take (p + off + 1) ++ sharedBlock g ++ src.drop (p + off + 1)) =
            .ok ((src.take (p + off + 1) ++ sharedBlock g ++
              src.drop (p + off + 1)) ++ [nul]) := by
          rw [cstring_new, if_neg hmem]
        simp only [prepare_source_code, hp, hoff, hcs] at h
        exact absurd h (by simp)

/-- Reduction of `create_shader` when preparation panicked. -/
theorem create_shader_panic_eq (g : List Char) (env : ShaderEnv) (name : List Char)
    (ty : Nat) (src : List Char) (hpre : prepare_source_code g src = .panicked) :
    create_shader g env name ty src = (none, []) := by
  simp only [create_shader, hpre]

/-- Reduction of `create_shader` when preparation returned an error. -/
theorem create_shader_err_eq (g : List Char) (env : ShaderEnv) (name : List Char)
    (ty : Nat) (src : List Char) (e : RendererError)
    (hpre : prepare_source_code g src = .err e) :
    create_shader g env name ty src = (some (.error e), []) := by
  simp only [create_shader, hpre]

/-- Reduction of `create_shader` on the successful-compile branch. -/
theorem create_shader_ok_eq (g : List Char) (env : ShaderEnv) (name : List Char)
    (ty : Nat) (src : List Char) (cs : List Char)
    (hpre : prepare_source_code g src = .ok cs) (hs : env.compileStatus ≠ 0) :
    create_shader g env name ty src =
      (some (.ok env.shaderId),
       [.createShaderCall ty, .shaderSource env.shaderId, .compileShader env.shaderId,
        .getCompileStatus env.shaderId, .logWrite (compiledMsg name)]) := by
  simp only [create_shader, hpre, if_neg hs]
  rfl

/-- Reduction of `create_shader` on the failed-compile branch. -/
theorem create_shader_fail_eq (g : List Char) (env : ShaderEnv) (name : List Char)
    (ty : Nat) (src : List Char) (cs : List Char)
    (hpre : prepare_source_code g src = .ok cs) (hs : env.compileStatus = 0) :
    create_shader g env name ty src =
      (some (.error (.ShaderCompilationFailed name env.infoLog)),
       [.createShaderCall ty, .shaderSource env.shaderId, .compileShader env.shaderId,
        .getCompileStatus env.shaderId, .getShaderInfoLogLen env.shaderId,
        .getShaderInfoLog env.shaderId,
        .logWrite (failedCompileMsg name env.infoLog)]) := by
  simp only [create_shader, hpre, if_pos hs]
  rfl

/-- The error in a `create_shader` failure is either the encoding error or
a compilation failure carrying the supplied stage name and the context's
diagnostic text. -/
theorem create_shader_error_shape (g : List Char) (env : ShaderEnv) (name : List Char)
    (ty : Nat) (src : List Char) (e : RendererError)
    (h : (create_shader g env name ty src).1 = some (.error e)) :
    e = .EncodingError ∨ e = .ShaderCompilationFailed name env.infoLog := by
  cases hpre : prepare_source_code g src with
  | panicked => rw [create_shader_panic_eq g env name ty src hpre] at h; exact absurd h (by simp)
  | err e' =>
    rw [create_shader_err_eq g env name ty src e' hpre] at h
    simp only at h
    obtain rfl : e' = e := by
      have := Option.some.inj h
      exact (Except.error.inj this)
    exact .inl (prepare_err_shape g src _ hpre)
  | ok cs =>
    by_cases hs : env.compileStatus = 0
    · rw [create_shader_fail_eq g env name ty src cs hpre hs] at h
      simp only at h
      have := Except.error.inj (Option.some.inj h)
      exact .inr this.symm
    · rw [create_shader_ok_eq g env name ty src cs hpre hs] at h
      simp only at h
      exact absurd (Option.some.inj h) (by simp)

/-- Count bounds on a `create_shader` trace: at most one stage-creation
and one compile call, and never a program-creation or program-deletion
call. -/
theorem create_shader_trace_bounds (g : List Char) (env : ShaderEnv) (name : List Char)
    (ty : Nat) (src : List Char) :
    (create_shader g env name ty src).2.countP isCreateShaderCall ≤ 1
    ∧ (create_shader g env name ty src).2.countP isCompileShader ≤ 1
    ∧ (create_shader g env name ty src).2.countP isCreateProgramCall = 0
    ∧ (create_shader g env name ty src).2.countP isDeleteProgram = 0 := by
  cases hpre : prepare_source_code g src with
  | panicked =>
    rw [create_shader_panic_eq g env name ty src hpre]
    simp [List.countP_nil]
  | err e =>
    rw [create_shader_err_eq g env name ty src e hpre]
    simp [List.countP_nil]
  | ok cs =>
    by_cases hs : env.compileStatus = 0
    · rw [create_shader_fail_eq g env name ty src cs hpre hs]
      simp [List.countP_cons, List.countP_nil, isCreateShaderCall, isCompileShader,
        isCreateProgramCall, isDeleteProgram]
    · rw [create_shader_ok_eq g env name ty src cs hpre hs]
      simp [List.countP_cons, List.countP_nil, isCreateShaderCall, isCompileShader,
        isCreateProgramCall, isDeleteProgram]

/-- Appending a non-empty list on the right changes a list. -/
theorem append_right_ne (a b : List Char) (hb : b ≠ []) : a ++ b ≠ a := by
  intro h
  have : (a ++ b).length = a.length := by rw [h]
  rw [List.length_append] at this
  have : b.length = 0 := by omega
  exact hb (List.length_eq_zero.mp this)

/-- C1 (counterexample): concrete link-failure run.  The context reports
the link diagnostic `"LINKFAIL"`, yet the returned `ShaderLinkingFailed`
carries an empty message (the info-log buffer's length is never set before
the string conversion), and the only process-log entries in the whole run
are the two stage-compile success lines — no entry records the link
failure before the error is returned. -/
theorem from_source_link_failure_cex :
    (GpuProgram.from_source [] ⟨1, 1, []⟩ ⟨2, 1, []⟩ ⟨3, 0, "LINKFAIL".toList⟩
        "P".toList "x".toList "y".toList).1 =
      some (.error (.ShaderLinkingFailed "P".toList []))
    ∧ ("LINKFAIL".toList : List Char) ≠ []
    ∧ logMessages (GpuProgram.from_source [] ⟨1, 1, []⟩ ⟨2, 1, []⟩
        ⟨3, 0, "LINKFAIL".toList⟩ "P".toList "x".toList "y".toList).2 =
      [compiledMsg "P_VertexShader".toList, compiledMsg "P_FragmentShader".toList] :=
  ⟨by rfl, by decide, by rfl⟩

/-- C1 (amended): when linking fails, `from_source` returns
`ShaderLinkingFailed` carrying the program name and an empty message (the
retrieved diagnostic bytes are dropped because the buffer's length is
never set), after issuing the info-log length query; no log entry about
the failure is written before the error is returned — the only log entries
of the run are the two stage-compile success lines. -/
theorem from_source_link_failure_spec (g : List Char) (venv fenv : ShaderEnv)
    (lenv : LinkEnv) (name vsrc fsrc cs1 cs2 : List Char)
    (hp1 : prepare_source_code g vsrc = .ok cs1)
    (hp2 : prepare_source_code g fsrc = .ok cs2)
    (hv : venv.compileStatus ≠ 0) (hf : fenv.compileStatus ≠ 0)
    (hl : lenv.linkStatus = 0) :
    (GpuProgram.from_source g venv fenv lenv name vsrc fsrc).1 =
      some (.error (.ShaderLinkingFailed name []))
    ∧ logMessages (GpuProgram.from_source g venv fenv lenv name vsrc fsrc).2 =
      [compiledMsg (name ++ "_VertexShader".toList),
       compiledMsg (name ++ "_FragmentShader".toList)]
    ∧ GLEvent.getProgramInfoLogLen lenv.programId ∈
        (GpuProgram.from_source g venv fenv lenv name vsrc fsrc).2 := by
  have h1 := create_shader_ok_eq g venv (name ++ "_VertexShader".toList)
    glVERTEX_SHADER vsrc cs1 hp1 hv
  have h2 := create_shader_ok_eq g fenv (name ++ "_FragmentShader".toList)
    glFRAGMENT_SHADER fsrc cs2 hp2 hf
  refine ⟨?_, ?_, ?_⟩ <;>
    simp only [GpuProgram.from_source, h1, h2, if_pos hl] <;>
    simp [logMessages]

/-- C1 (witness): concrete successful-compile, failed-link run hitting the
amended theorem. -/
theorem from_source_link_failure_spec_w :
    (GpuProgram.from_source "S".toList ⟨1, 1, []⟩ ⟨2, 1, []⟩ ⟨3, 0, "D".toList⟩
        "Q".toList "a".toList "b".toList).1 =
      some (.error (.ShaderLinkingFailed "Q".toList [])) :=
  (from_source_link_failure_spec "S".toList ⟨1, 1, []⟩ ⟨2, 1, []⟩ ⟨3, 0, "D".toList⟩
    "Q".toList "a".toList "b".toList _ _ (by rfl) (by rfl) (by decide) (by decide)
    rfl).1

/-- C4 (confirmed): given that preparation succeeded, if the compile-status
flag is zero and the context's diagnostic log is non-empty (the context
guarantee for invalid source), `create_shader` queries the log length,
retrieves the log, writes the `Failed to compile <name> shader: <message>`
log entry, and returns `ShaderCompilationFailed` carrying the supplied
stage name and that non-empty message; if the status is non-zero it writes
`Shader <name> compiled!` and returns the native stage handle. -/
theorem create_shader_diag_spec (g : List Char) (env : ShaderEnv) (name : List Char)
    (ty : Nat) (src cs : List Char) (hpre : prepare_source_code g src = .ok cs) :
    (env.compileStatus = 0 → env.infoLog ≠ [] →
      create_shader g env name ty src =
        (some (.error (.ShaderCompilationFailed name env.infoLog)),
         [.createShaderCall ty, .shaderSource env.shaderId, .compileShader env.shaderId,
          .getCompileStatus env.shaderId, .getShaderInfoLogLen env.shaderId,
          .getShaderInfoLog env.shaderId,
          .logWrite (failedCompileMsg name env.infoLog)])
      ∧ env.infoLog ≠ [])
    ∧ (env.compileStatus ≠ 0 →
      create_shader g env name ty src =
        (some (.ok env.shaderId),
         [.createShaderCall ty, .shaderSource env.shaderId, .compileShader env.shaderId,
          .getCompileStatus env.shaderId, .logWrite (compiledMsg name)])) :=
  ⟨fun hs hlog => ⟨create_shader_fail_eq g env name ty src cs hpre hs, hlog⟩,
   fun hs => create_shader_ok_eq g env name ty src cs hpre hs⟩

/-- C4 (witness): concrete failed compile with diagnostic `"BAD"`. -/
theorem create_shader_diag_spec_w :
    create_shader "S".toList ⟨7, 0, "BAD".toList⟩ "V".toList glVERTEX_SHADER "x".toList =
      (some (.error (.ShaderCompilationFailed "V".toList "BAD".toList)),
       [.createShaderCall glVERTEX_SHADER, .shaderSource 7, .compileShader 7,
        .getCompileStatus 7, .getShaderInfoLogLen 7, .getShaderInfoLog 7,
        .logWrite (failedCompileMsg "V".toList "BAD".toList)]) :=
  ((create_shader_diag_spec "S".toList ⟨7, 0, "BAD".toList⟩ "V".toList glVERTEX_SHADER
    "x".toList _ (by rfl)).1 (by rfl) (by decide)).1

/-- C5 (confirmed): construction is atomic.  If compiling the vertex stage
fails, `from_source` returns exactly that error, its whole event trace is
the vertex-compilation trace (so the fragment stage is never submitted:
at most one compile call), and no native program object is ever created;
a `Program` value is only produced on the fully linked path (the result
type allows no partially built program). -/
theorem from_source_atomicity (g : List Char) (venv fenv : ShaderEnv) (lenv : LinkEnv)
    (name vsrc fsrc : List Char) (e : RendererError)
    (h : (create_shader g venv (name ++ "_VertexShader".toList) glVERTEX_SHADER vsrc).1
      = some (.error e)) :
    (GpuProgram.from_source g venv fenv lenv name vsrc fsrc).1 = some (.error e)
    ∧ (GpuProgram.from_source g venv fenv lenv name vsrc fsrc).2 =
        (create_shader g venv (name ++ "_VertexShader".toList) glVERTEX_SHADER vsrc).2
    ∧ (GpuProgram.from_source g venv fenv lenv name vsrc fsrc).2.countP isCompileShader ≤ 1
    ∧ (GpuProgram.from_source g venv fenv lenv name vsrc fsrc).2.countP
        isCreateProgramCall = 0 := by
  cases hcs : create_shader g venv (name ++ "_VertexShader".toList) glVERTEX_SHADER vsrc with
  | mk r t =>
    rw [hcs] at h
    obtain rfl : r = some (.error e) := h
    have hb := create_shader_trace_bounds g venv (name ++ "_VertexShader".toList)
      glVERTEX_SHADER vsrc
    rw [hcs] at hb
    refine ⟨?_, ?_, ?_, ?_⟩
    · simp only [GpuProgram.from_source, hcs]
    · simp only [GpuProgram.from_source, hcs]
    · simp only [GpuProgram.from_source, hcs]
      exact hb.2.1
    · simp only [GpuProgram.from_source, hcs]
      exact hb.2.2.1

/-- C5 (witness): concrete run whose vertex stage fails to compile; the
error is propagated unchanged and no program-creation call occurs. -/
theorem from_source_atomicity_w :
    (create_shader "S".toList ⟨1, 0, "BAD".toList⟩ ("P".toList ++ "_VertexShader".toList)
        glVERTEX_SHADER "x".toList).1 =
      some (.error (.ShaderCompilationFailed ("P".toList ++ "_VertexShader".toList)
        "BAD".toList))
    ∧ (GpuProgram.from_source "S".toList ⟨1, 0, "BAD".toList⟩ ⟨2, 1, []⟩ ⟨3, 1, []⟩
        "P".toList "x".toList "y".toList).1 =
      some (.error (.ShaderCompilationFailed ("P".toList ++ "_VertexShader".toList)
        "BAD".toList)) :=
  ⟨by rfl,
   (from_source_atomicity "S".toList ⟨1, 0, "BAD".toList⟩ ⟨2, 1, []⟩ ⟨3, 1, []⟩
     "P".toList "x".toList "y".toList _ (by rfl)).1⟩

/-- C10 (confirmed): any `ShaderCompilationFailed` error escaping
`from_source` carries, as its shader name, the program name suffixed with
`_VertexShader` or `_FragmentShader` according to the failed stage — never
the bare program name. -/
theorem from_source_compile_error_name_suffix (g : List Char) (venv fenv : ShaderEnv)
    (lenv : LinkEnv) (name vsrc fsrc n m : List Char)
    (h : (GpuProgram.from_source g venv fenv lenv name vsrc fsrc).1 =
      some (.error (.ShaderCompilationFailed n m))) :
    (n = name ++ "_VertexShader".toList ∨ n = name ++ "_FragmentShader".toList)
    ∧ n ≠ name := by
  have hsuffix : ∀ s : List Char,
      s = name ++ "_VertexShader".toList ∨ s = name ++ "_FragmentShader".toList →
      s ≠ name := by
    intro s hs
    rcases hs with rfl | rfl
    · exact append_right_ne name _ (by decide)
    · exact append_right_ne name _ (by decide)
  suffices hmain :
      n = name ++ "_VertexShader".toList ∨ n = name ++ "_FragmentShader".toList by
    exact ⟨hmain, hsuffix n hmain⟩
  cases hcs1 : create_shader g venv (name ++ "_VertexShader".toList)
      glVERTEX_SHADER vsrc with
  | mk r1 t1 =>
    cases r1 with
    | none =>
      simp only [GpuProgram.from_source, hcs1] at h
      exact absurd h (by simp)
    | some x1 =>
      cases x1 with
      | error e =>
        simp only [GpuProgram.from_source, hcs1] at h
        obtain rfl : e = .ShaderCompilationFailed n m :=
          Except.error.inj (Option.some.inj h)
        have hshape := create_shader_error_shape g venv
          (name ++ "_VertexShader".toList) glVERTEX_SHADER vsrc _ (by rw [hcs1])
        rcases hshape with h1 | h1
        · exact absurd h1 (by simp)
        · exact .inl (RendererError.ShaderCompilationFailed.inj h1).1
      | ok vs =>
        cases hcs2 : create_shader g fenv (name ++ "_FragmentShader".toList)
            glFRAGMENT_SHADER fsrc with
        | mk r2 t2 =>
          cases r2 with
          | none =>
            simp only [GpuProgram.from_source, hcs1, hcs2] at h
            exact absurd h (by simp)
          | some x2 =>
            cases x2 with
            | error e =>
              simp only [GpuProgram.from_source, hcs1, hcs2] at h
              obtain rfl : e = .ShaderCompilationFailed n m :=
                Except.error.inj (Option.some.inj h)
              have hshape := create_shader_error_shape g fenv
                (name ++ "_FragmentShader".toList) glFRAGMENT_SHADER fsrc _
                (by rw [hcs2])
              rcases hshape with h1 | h1
              · exact absurd h1 (by simp)
              · exact .inr (RendererError.ShaderCompilationFailed.inj h1).1
            | ok fs =>
              by_cases hl : lenv.linkStatus = 0
              · simp only [GpuProgram.from_source, hcs1, hcs2, if_pos hl] at h
                exact absurd (Except.error.inj (Option.some.inj h)) (by simp)
              · simp only [GpuProgram.from_source, hcs1, hcs2, if_neg hl] at h
                exact absurd (Option.some.inj h) (by simp)

/-- C10 (witness): concrete run with a fragment-stage compile failure; the
error's shader name is the program name with the `_FragmentShader`
suffix. -/
theorem from_source_compile_error_name_suffix_w :
    (GpuProgram.from_source "S".toList ⟨1, 1, []⟩ ⟨2, 0, "UGH".toList⟩ ⟨3, 1, []⟩
        "P".toList "x".toList "y".toList).1 =
      some (.error (.ShaderCompilationFailed
        ("P".toList ++ "_FragmentShader".toList) "UGH".toList))
    ∧ (("P".toList ++ "_FragmentShader".toList : List Char) =
          "P".toList ++ "_VertexShader".toList
        ∨ ("P".toList ++ "_FragmentShader".toList : List Char) =
          "P".toList ++ "_FragmentShader".toList)
    ∧ ("P".toList ++ "_FragmentShader".toList : List Char) ≠ "P".toList :=
  ⟨by rfl,
   from_source_compile_error_name_suffix "S".toList ⟨1, 1, []⟩ ⟨2, 0, "UGH".toList⟩
     ⟨3, 1, []⟩ "P".toList "x".toList "y".toList
     ("P".toList ++ "_FragmentShader".toList) "UGH".toList (by rfl)⟩

/-- C6 (confirmed): for every uniform value, `set_uniform` first re-binds
the owning program as current via the graphics state — the first trace
event is always the program-bind request — and then dispatches on the
value's tag; for an `Integer` value the result is exactly the program-bind
followed by one single-integer upload call with the given value. -/
theorem set_uniform_binds_then_dispatches (p : GpuProgram) (st : State)
    (loc : UniformLocation) (v : UniformValue) :
    ((GpuProgram.set_uniform p st loc v).2).head? = some (.setProgram p.id)
    ∧ ∀ n : Int, GpuProgram.set_uniform p st loc (.Integer n) =
        ({ program := p.id }, [.setProgram p.id, .uniform1i loc.id n]) := by
  constructor
  · cases v <;> rfl
  · intro n; rfl

/-- C7 (confirmed): uploading `Sampler{index, texture}` issues, after the
program-bind, exactly one single-integer upload of `index` at the resolved
location followed by exactly one bind-to-unit(`index`) request to the
texture (stated for `index` within the `i32` range, where the `usize` to
`i32` cast is the identity). -/
theorem set_uniform_sampler_spec (p : GpuProgram) (st : State) (loc : UniformLocation)
    (index : Nat) (tex : GpuTexture) (h : index < 2 ^ 31) :
    (GpuProgram.set_uniform p st loc (.Sampler index tex)).2 =
      [.setProgram p.id, .uniform1i loc.id (index : Int),
       .textureBindToUnit tex.id index] := by
  have h32 : index % 2 ^ 32 = index := Nat.mod_eq_of_lt (lt_trans h (by norm_num))
  have hcast : i32_of_usize index = (index : Int) := by
    simp only [i32_of_usize, h32, if_pos h]
  simp [GpuProgram.set_uniform, GpuTexture.bind, State.set_program, hcast]

/-- C7 (witness): `Sampler{index: 2}` produces an integer upload of 2 and a
bind-to-unit(2) request to the texture. -/
theorem set_uniform_sampler_spec_w :
    (GpuProgram.set_uniform ⟨5, []⟩ ⟨0⟩ ⟨3⟩ (.Sampler 2 ⟨9⟩)).2 =
      [.setProgram 5, .uniform1i 3 (2 : Int), .textureBindToUnit 9 2] :=
  set_uniform_sampler_spec ⟨5, []⟩ ⟨0⟩ ⟨3⟩ 2 ⟨9⟩ (by norm_num)

/-- C8 (confirmed): `uniform_location` returns
`UnableToFindShaderUniform` (the spec's UniformNotFound) carrying the
queried name exactly when the context's response is negative, returns a
`UniformLocation` wrapping the non-negative response otherwise, and in
either case issues only the location query — no event of the run mutates
the graphics state. -/
theorem uniform_location_spec (p : GpuProgram) (queryLoc : Int) (name : List Char) :
    (queryLoc < 0 →
      (GpuProgram.uniform_location p queryLoc name).1 =
        .error (.UnableToFindShaderUniform name))
    ∧ (0 ≤ queryLoc →
      (GpuProgram.uniform_location p queryLoc name).1 = .ok { id := queryLoc })
    ∧ (∀ ev ∈ (GpuProgram.uniform_location p queryLoc name).2.2,
        mutatesGraphicsState ev = false) := by
  refine ⟨?_, ?_, ?_⟩
  · intro h
    simp only [GpuProgram.uniform_location, if_pos h]
  · intro h
    simp only [GpuProgram.uniform_location, if_neg (not_lt.mpr h)]
  · intro ev hev
    by_cases h : queryLoc < 0
    · simp only [GpuProgram.uniform_location, if_pos h] at hev
      rw [List.mem_singleton] at hev
      subst hev; rfl
    · simp only [GpuProgram.uniform_location, if_neg h] at hev
      rw [List.mem_singleton] at hev
      subst hev; rfl

/-- C8 (witness): a negative response yields the not-found error carrying
the name; response 4 yields the wrapped location 4. -/
theorem uniform_location_spec_w :
    (GpuProgram.uniform_location ⟨5, []⟩ (-1) "u_m".toList).1 =
      .error (.UnableToFindShaderUniform "u_m".toList)
    ∧ (GpuProgram.uniform_location ⟨5, []⟩ 4 "u_m".toList).1 =
      .ok { id := (4 : Int) } :=
  ⟨(uniform_location_spec ⟨5, []⟩ (-1) "u_m".toList).1 (by norm_num),
   (uniform_location_spec ⟨5, []⟩ 4 "u_m".toList).2.1 (by norm_num)⟩

/-- A `from_source` trace never contains a program-deletion call (on the
link-failure path the partially built program object is leaked, not
deleted). -/
theorem from_source_no_delete (g : List Char) (venv fenv : ShaderEnv) (lenv : LinkEnv)
    (name vsrc fsrc : List Char) :
    (GpuProgram.from_source g venv fenv lenv name vsrc fsrc).2.countP
      isDeleteProgram = 0 := by
  have hb1 := (create_shader_trace_bounds g venv (name ++ "_VertexShader".toList)
    glVERTEX_SHADER vsrc).2.2.2
  have hb2 := (create_shader_trace_bounds g fenv (name ++ "_FragmentShader".toList)
    glFRAGMENT_SHADER fsrc).2.2.2
  cases hcs1 : create_shader g venv (name ++ "_VertexShader".toList)
      glVERTEX_SHADER vsrc with
  | mk r1 t1 =>
    rw [hcs1] at hb1
    cases r1 with
    | none =>
      simp only [GpuProgram.from_source, hcs1]
      exact hb1
    | some x1 =>
      cases x1 with
      | error e =>
        simp only [GpuProgram.from_source, hcs1]
        exact hb1
      | ok vs =>
        cases hcs2 : create_shader g fenv (name ++ "_FragmentShader".toList)
            glFRAGMENT_SHADER fsrc with
        | mk r2 t2 =>
          rw [hcs2] at hb2
          have hb1a : t1.countP isDeleteProgram = 0 := hb1
          have hb2a : t2.countP isDeleteProgram = 0 := hb2
          cases r2 with
          | none =>
            simp only [GpuProgram.from_source, hcs1, hcs2]
            simp [List.countP_append, hb1a, hb2a]
          | some x2 =>
            cases x2 with
            | error e =>
              simp only [GpuProgram.from_source, hcs1, hcs2]
              simp [List.countP_append, hb1a, hb2a]
            | ok fs =>
              by_cases hl : lenv.linkStatus = 0
              · simp only [GpuProgram.from_source, hcs1, hcs2, if_pos hl]
                simp [List.countP_append, List.countP_cons, List.countP_nil,
                  isDeleteProgram, hb1a, hb2a]
              · simp only [GpuProgram.from_source, hcs1, hcs2, if_neg hl]
                simp [List.countP_append, List.countP_cons, List.countP_nil,
                  isDeleteProgram, hb1a, hb2a]

/-- No lifetime operation on a live program emits a program-deletion
call. -/
theorem runOp_no_delete (p : GpuProgram) (s : State) (op : LifeOp) :
    (runOp p s op).2.countP isDeleteProgram = 0 := by
  cases op with
  | bindOp =>
    simp [runOp, GpuProgram.bind, State.set_program, List.countP_cons,
      List.countP_nil, isDeleteProgram]
  | locOp q nm =>
    by_cases h : q < 0 <;>
      simp [runOp, GpuProgram.uniform_location, h, List.countP_cons,
        List.countP_nil, isDeleteProgram]
  | setOp loc v =>
    cases v <;>
      simp [runOp, GpuProgram.set_uniform, State.set_program, GpuTexture.bind,
        List.countP_cons, List.countP_nil, List.countP_append, isDeleteProgram]

/-- No sequence of lifetime operations emits a program-deletion call. -/
theorem runOps_no_delete (p : GpuProgram) (s : State) (ops : List LifeOp) :
    (runOps p s ops).2.countP isDeleteProgram = 0 := by
  induction ops generalizing s with
  | nil => rfl
  | cons op ops ih =>
    have h1 := runOp_no_delete p s op
    have h2 := ih (runOp p s op).1
    simp only [runOps, List.countP_append]
    omega

/-- C9 (confirmed): over the whole lifetime of a successfully constructed
Program — construction trace, any sequence of operations on the live
program, and the terminal teardown — exactly one native program-deletion
call is issued.  The teardown appears exactly once, terminally, mirroring
Rust's ownership guarantee that `drop` runs once; no other operation ever
emits the deletion call, so no second deletion can occur. -/
theorem program_lifetime_single_delete (g : List Char) (venv fenv : ShaderEnv)
    (lenv : LinkEnv) (name vsrc fsrc : List Char) (s0 : State) (ops : List LifeOp)
    (p : GpuProgram)
    (h : (GpuProgram.from_source g venv fenv lenv name vsrc fsrc).1 = some (.ok p)) :
    (lifetimeEvents g venv fenv lenv name vsrc fsrc s0 ops).countP isDeleteProgram
      = 1 := by
  have hfs := from_source_no_delete g venv fenv lenv name vsrc fsrc
  have hops := runOps_no_delete p s0 ops
  cases hpair : GpuProgram.from_source g venv fenv lenv name vsrc fsrc with
  | mk r t =>
    rw [hpair] at h hfs
    obtain rfl : r = some (.ok p) := h
    have hfsa : t.countP isDeleteProgram = 0 := hfs
    simp only [lifetimeEvents, hpair]
    simp [List.countP_append, List.countP_cons, List.countP_nil, isDeleteProgram,
      GpuProgram.dropProgram, hfsa, hops]

/-- C9 (witness): a concrete successful construction followed by one bind
operation and teardown has exactly one program-deletion call in its
lifetime trace. -/
theorem program_lifetime_single_delete_w :
    (GpuProgram.from_source "S".toList ⟨1, 1, []⟩ ⟨2, 1, []⟩ ⟨3, 1, []⟩
        "P".toList "x".toList "y".toList).1 = some (.ok ⟨3, []⟩)
    ∧ (lifetimeEvents "S".toList ⟨1, 1, []⟩ ⟨2, 1, []⟩ ⟨3, 1, []⟩ "P".toList
        "x".toList "y".toList ⟨0⟩ [LifeOp.bindOp]).countP isDeleteProgram = 1 :=
  ⟨by rfl,
   program_lifetime_single_delete "S".toList ⟨1, 1, []⟩ ⟨2, 1, []⟩ ⟨3, 1, []⟩
     "P".toList "x".toList "y".toList ⟨0⟩ [LifeOp.bindOp] ⟨3, []⟩ (by rfl)⟩

end Rg3d
